import Mathlib

/-!
# Verification of the AI_student phase-2 scoring engine and audit pipeline

Shallow embedding of `src/phase_2/batch_audit_processor.py` (the deterministic
scoring engine, the zero-score validity check, the three-stage per-unit
pipeline and the result aggregation) and of the scoring functions of
`src/phase_2/human_eval_app.py`.

Python values are modelled by the inductive type `PyVal`; Python `dict`s are
insertion-ordered association lists; exceptions are modelled with
`Except String`; Python `float` arithmetic on the scoring constants is exact
decimal arithmetic, modelled with `ℚ` (every constant in the engine is a
multiple of 1/10, so no rounding of intermediate values occurs in the source
either).  `round(x, 2)` is modelled by `round2`; on the engine's values, which
are all integer multiples of 1/100, it is the identity, so the choice of
tie-breaking rule is immaterial.
-/

set_option linter.unusedVariables false

/-- Model of a Python value as consumed/produced by the phase-2 pipeline:
`None`, `bool`, `int`, `float` (exact, as `ℚ`), `str`, `list`, `dict`
(insertion-ordered association list, as produced by `json.loads`). -/
inductive PyVal where
  | none
  | bool (b : Bool)
  | int (n : ℤ)
  | float (q : ℚ)
  | str (s : String)
  | list (xs : List PyVal)
  | dict (d : List (String × PyVal))

/-- Lowercase a string (model of Python `str.lower`). -/
def lowerStr (s : String) : String :=
  String.mk (s.toList.map Char.toLower)

/-- Does `hay` start with `needle`? (helper for substring search). -/
def listStartsWith : List Char → List Char → Bool
  | [], _ => true
  | _ :: _, [] => false
  | n :: ns, h :: hs => n = h && listStartsWith ns hs

/-- Does `needle` occur in `hay`? (model of Python `needle in hay` on strings). -/
def listHasSub (needle : List Char) : List Char → Bool
  | [] => listStartsWith needle []
  | c :: t => listStartsWith needle (c :: t) || listHasSub needle t

/-- String containment (model of Python `needle in hay`). -/
def strHasSub (hay needle : String) : Bool :=
  listHasSub needle.toList hay.toList

/-- Model of Python `round(q, 2)`.  On the engine's values (always integer
multiples of 1/100) this is the identity, so the tie rule is immaterial. -/
def round2 (q : ℚ) : ℚ :=
  ((⌊q * 100 + 1/2⌋ : ℤ) : ℚ) / 100

/-- Python's `min(a, b)` on exact floats (an `if` that reduces
definitionally, unlike Mathlib's lattice `min` on `ℚ`). -/
def pymin (a b : ℚ) : ℚ := if a ≤ b then a else b

/-- Python's `max(a, b)` on exact floats. -/
def pymax (a b : ℚ) : ℚ := if b ≤ a then a else b

/-- Model of Python `"%.1f" % q` for the exact decimal values the engine
formats (only used to build the human-readable breakdown strings). -/
def fmt1 (q : ℚ) : String :=
  let n : ℤ := ⌊q * 10 + 1/2⌋
  let sign := if n < 0 then "-" else ""
  let m := n.natAbs
  sign ++ toString (m / 10) ++ "." ++ toString (m % 10)

/-- Model of Python `"%.2f" % q` (breakdown strings only). -/
def fmt2 (q : ℚ) : String :=
  let n : ℤ := ⌊q * 100 + 1/2⌋
  let sign := if n < 0 then "-" else ""
  let m := n.natAbs
  let frac := m % 100
  sign ++ toString (m / 100) ++ "." ++ (if frac < 10 then "0" else "") ++ toString frac

/-- Association-list lookup (Python `d[k]` / key search; first binding wins,
matching Python dicts, which hold each key at most once anyway). -/
def lookupA (k : String) : List (String × PyVal) → Option PyVal
  | [] => Option.none
  | (k', v) :: t => if k' = k then some v else lookupA k t

/-- Model of Python `d[k] = v` on a dict: replace in place if the key exists
(keeping its position), else append (insertion order). -/
def setA (k : String) (v : PyVal) : List (String × PyVal) → List (String × PyVal)
  | [] => [(k, v)]
  | (k', v') :: t => if k' = k then (k, v) :: t else (k', v') :: setA k v t

/-- Model of Python `d.setdefault(k, v)`'s effect on the dict. -/
def sdA (k : String) (v : PyVal) (d : List (String × PyVal)) : List (String × PyVal) :=
  match lookupA k d with
  | some _ => d
  | Option.none => d ++ [(k, v)]

/-- Model of Python `del d[k]`. -/
def delA (k : String) : List (String × PyVal) → List (String × PyVal)
  | [] => []
  | (k', v') :: t => if k' = k then t else (k', v') :: delA k t

namespace PyVal

/-- Key lookup on a `PyVal` (none when not a dict or key absent). -/
def lookupKey (k : String) : PyVal → Option PyVal
  | .dict d => lookupA k d
  | _ => Option.none

/-- Model of Python `k in v` for a dict receiver (total; used only where the
receiver is known to be a dict). -/
def hasKey (k : String) : PyVal → Bool
  | .dict d => (lookupA k d).isSome
  | _ => false

/-- Model of `v.get(k, dflt)` where the receiver is known to be a dict
(total version; callers that may receive a non-dict use `getExc`). -/
def getD (v : PyVal) (k : String) (dflt : PyVal) : PyVal :=
  match v with
  | .dict d => (lookupA k d).getD dflt
  | _ => dflt

/-- Model of Python `v.get(k, dflt)`: an `AttributeError` is raised when the
receiver is not a dict (e.g. `int`, `str`, `list` have no `.get`). -/
def getExc (v : PyVal) (k : String) (dflt : PyVal) : Except String PyVal :=
  match v with
  | .dict d => .ok ((lookupA k d).getD dflt)
  | _ => .error "AttributeError: object has no attribute get"

/-- Model of `v[k] = x` on a `PyVal` known to be a dict (no-op otherwise;
raising callers check the receiver first). -/
def set (v : PyVal) (k : String) (x : PyVal) : PyVal :=
  match v with
  | .dict d => .dict (setA k x d)
  | _ => v

/-- Model of `v.setdefault(k, x)`'s effect on a dict `v`. -/
def setdefault (v : PyVal) (k : String) (x : PyVal) : PyVal :=
  match v with
  | .dict d => .dict (sdA k x d)
  | _ => v

/-- Model of `del v[k]` on a dict `v`. -/
def del (v : PyVal) (k : String) : PyVal :=
  match v with
  | .dict d => .dict (delA k d)
  | _ => v

/-- Is the value a dict? -/
def isDict : PyVal → Bool
  | .dict _ => true
  | _ => false

/-- Python truthiness: `None`, `False`, `0`, `0.0`, `""`, `[]`, `{}` are falsy. -/
def truthy : PyVal → Bool
  | .none => false
  | .bool b => b
  | .int n => n ≠ 0
  | .float q => q ≠ 0
  | .str s => s ≠ ""
  | .list xs => ¬ xs.isEmpty
  | .dict d => ¬ d.isEmpty

/-- Model of Python `v == 0` (numeric equality across `bool`/`int`/`float`;
every other type compares unequal to `0`). -/
def eqZero : PyVal → Bool
  | .bool b => ¬ b
  | .int n => n = 0
  | .float q => q = 0
  | _ => false

end PyVal

/-- Truncation of a rational toward zero (model of Python `int(float)`). -/
def ratTrunc (q : ℚ) : ℤ :=
  if 0 ≤ q then ⌊q⌋ else ⌈q⌉

/-- Parse a decimal integer literal with optional sign (model of `int(str)`;
`Option.none` for strings Python's `int()` rejects). -/
def parseIntS (s : String) : Option ℤ :=
  let cs := s.toList
  let (sign, digits) : ℤ × List Char :=
    match cs with
    | '-' :: t => (-1, t)
    | '+' :: t => (1, t)
    | t => (1, t)
  if digits.isEmpty ∨ ¬ digits.all Char.isDigit then Option.none
  else some (sign * (digits.foldl (fun a c => a * 10 + (c.toNat - '0'.toNat)) 0 : ℕ))

/-- Model of Python `int(v)`: `bool → 0/1`, `int` identity, `float` truncates
toward zero, `str` parses a decimal literal or raises `ValueError`, every
other type raises `TypeError`. -/
def pyToInt : PyVal → Except String ℤ
  | .bool b => .ok (if b then 1 else 0)
  | .int n => .ok n
  | .float q => .ok (ratTrunc q)
  | .str s =>
    match parseIntS s with
    | some n => .ok n
    | Option.none => .error "ValueError: invalid literal for int"
  | _ => .error "TypeError: int() argument"

/-- Model of Python list indexing `xs[i]` with negative-index wrap-around and
`IndexError` out of range. -/
def pyListIndex (xs : List ℚ) (i : ℤ) : Except String ℚ :=
  let n : ℤ := xs.length
  let j : ℤ := if i < 0 then i + n else i
  if 0 ≤ j ∧ j < n then .ok (xs.getD j.toNat 0)
  else .error "IndexError: list index out of range"

/-- Model of `sev_penalty(level, p1, p2, p3)` from
`batch_audit_processor._calculate_agent2_scores` (and of the identical
`_sev_penalty` in `human_eval_app.py`):
`level = int(level) if isinstance(level, (int, float)) else 0` (note that a
Python `bool` is an `int`, so `True` becomes `1`), then
`[0, p1, p2, p3][min(level, 3)]` with Python list-index semantics. -/
def sev_penalty (level : PyVal) (p1 p2 p3 : ℚ) : Except String ℚ :=
  let lv : ℤ :=
    match level with
    | .bool b => if b then 1 else 0
    | .int n => n
    | .float q => ratTrunc q
    | _ => 0
  pyListIndex [0, p1, p2, p3] (min lv 3)

/-- Join of deduction steps: `" → ".join(steps)`. -/
def joinSteps (steps : List String) : String :=
  String.intercalate " → " steps

/-- Pure arithmetic core of `_calculate_agent2_scores`, taking the already
extracted penalty values and coerced integers.  Mirrors the source line by
line: `accuracy` starts at 5.0 and each flag with a non-zero penalty is
subtracted and recorded; `score_cap` is lowered to 3.5 by pure-calc bias ≥ 2
and to 2.0 by brevity == 3; the logic score additionally gets a 3.0 flow cap
when the flow string mentions `formula_to_solving`; both scores end with
`round(min(cap, max(1.0, s)), 2)`.  (In the source the reads, coercions and
arithmetic interleave; since none of the arithmetic can raise, hoisting the
reads before the arithmetic — done in `agent2Compute` below — preserves both
the value and whether an exception occurs.) -/
def objCore (fd pc dg : ℚ) (pcI bI : ℤ) (cb sc mc bw tm va : ℚ)
    (crit minor : ℤ) (flow : String) (ll pv ci io : ℤ) :
    ℚ × ℚ × List String × List String :=
  -- ── ACCURACY SCORE ──
  let acc0 : ℚ := 5
  let as0 : List String := ["Base: 5.0"]
  -- pedagogical depth (shared with logic)
  let acc1 := if fd ≠ 0 then acc0 - fd else acc0
  let as1 := if fd ≠ 0 then as0 ++ ["Formula Dumping: -" ++ fmt1 fd] else as0
  let acc2 := if pc ≠ 0 then acc1 - pc else acc1
  let as2 := if pc ≠ 0 then as1 ++ ["Pure Calc Bias: -" ++ fmt1 pc] else as1
  let acc3 := if dg ≠ 0 then acc2 - dg else acc2
  let as3 := if dg ≠ 0 then as2 ++ ["Depth Gap: -" ++ fmt1 dg] else as2
  -- pure calc bias caps score at 3.5
  let cap1 : ℚ := if pcI ≥ 2 then pymin 5 (7/2) else 5
  -- completeness (shared with logic); brevity == 3 caps at 2.0
  let cap2 : ℚ := if bI = 3 then pymin cap1 2 else cap1
  let acc4 := if cb ≠ 0 then acc3 - cb else acc3
  let as4 := if cb ≠ 0 then as3 ++ ["Content Brevity: -" ++ fmt1 cb] else as3
  let acc5 := if sc ≠ 0 then acc4 - sc else acc4
  let as5 := if sc ≠ 0 then as4 ++ ["Superficial Coverage: -" ++ fmt1 sc] else as4
  let acc6 := if mc ≠ 0 then acc5 - mc else acc5
  let as6 := if mc ≠ 0 then as5 ++ ["Missing Core Concepts: -" ++ fmt1 mc] else as5
  let acc7 := if bw ≠ 0 then acc6 - bw else acc6
  let as7 := if bw ≠ 0 then as6 ++ ["Breadth Without Depth: -" ++ fmt1 bw] else as6
  -- accuracy-only flags
  let acc8 := if tm ≠ 0 then acc7 - tm else acc7
  let as8 := if tm ≠ 0 then as7 ++ ["Title-Content Mismatch: -" ++ fmt1 tm] else as7
  let acc9 := if va ≠ 0 then acc8 - va else acc8
  let as9 := if va ≠ 0 then as8 ++ ["Visual Alignment Issue: -" ++ fmt1 va] else as8
  -- error counts
  let acc10 := if crit ≠ 0 then acc9 - (crit : ℚ) * (1/2) else acc9
  let as10 := if crit ≠ 0 then
      as9 ++ ["Critical Errors x" ++ toString crit ++ ": -" ++ fmt1 ((crit : ℚ) * (1/2))]
    else as9
  let acc11 := if minor ≠ 0 then acc10 - (minor : ℚ) * (1/5) else acc10
  let as11 := if minor ≠ 0 then
      as10 ++ ["Minor Slips x" ++ toString minor ++ ": -" ++ fmt1 ((minor : ℚ) * (1/5))]
    else as10
  let accuracy := round2 (pymin cap2 (pymax 1 acc11))
  let asF := as11 ++ ["= " ++ fmt2 accuracy]
  -- ── LOGIC SCORE ──
  let log0 : ℚ := 5
  let lcap0 : ℚ :=
    if strHasSub flow "formula_to_solving" || strHasSub flow "formula-to-solving" then 3 else 5
  let ls0 : List String :=
    if strHasSub flow "formula_to_solving" || strHasSub flow "formula-to-solving" then
      ["Base: 5.0", "Flow Cap (formula_to_solving): max 3.0"]
    else ["Base: 5.0"]
  let lcap1 : ℚ := if pcI ≥ 2 then pymin lcap0 (7/2) else lcap0
  let lcap2 : ℚ := if bI = 3 then pymin lcap1 2 else lcap1
  -- shared depth/completeness deductions
  let log1 := if fd ≠ 0 then log0 - fd else log0
  let ls1 := if fd ≠ 0 then ls0 ++ ["Formula Dumping: -" ++ fmt1 fd] else ls0
  let log2 := if pc ≠ 0 then log1 - pc else log1
  let ls2 := if pc ≠ 0 then ls1 ++ ["Pure Calc Bias: -" ++ fmt1 pc] else ls1
  let log3 := if dg ≠ 0 then log2 - dg else log2
  let ls3 := if dg ≠ 0 then ls2 ++ ["Depth Gap: -" ++ fmt1 dg] else ls2
  let log4 := if cb ≠ 0 then log3 - cb else log3
  let ls4 := if cb ≠ 0 then ls3 ++ ["Content Brevity: -" ++ fmt1 cb] else ls3
  let log5 := if sc ≠ 0 then log4 - sc else log4
  let ls5 := if sc ≠ 0 then ls4 ++ ["Superficial Coverage: -" ++ fmt1 sc] else ls4
  let log6 := if mc ≠ 0 then log5 - mc else log5
  let ls6 := if mc ≠ 0 then ls5 ++ ["Missing Core Concepts: -" ++ fmt1 mc] else ls5
  let log7 := if bw ≠ 0 then log6 - bw else log6
  let ls7 := if bw ≠ 0 then ls6 ++ ["Breadth Without Depth: -" ++ fmt1 bw] else ls6
  -- logic-only error counts
  let log8 := if ll ≠ 0 then log7 - (ll : ℚ) * (1/2) else log7
  let ls8 := if ll ≠ 0 then
      ls7 ++ ["Logic Leaps x" ++ toString ll ++ ": -" ++ fmt1 ((ll : ℚ) * (1/2))]
    else ls7
  let log9 := if pv ≠ 0 then log8 - (pv : ℚ) * (1/2) else log8
  let ls9 := if pv ≠ 0 then
      ls8 ++ ["Prereq Violations x" ++ toString pv ++ ": -" ++ fmt1 ((pv : ℚ) * (1/2))]
    else ls8
  let log10 := if ci ≠ 0 then log9 - (ci : ℚ) * (2/5) else log9
  let ls10 := if ci ≠ 0 then
      ls9 ++ ["Causal Inconsistency x" ++ toString ci ++ ": -" ++ fmt1 ((ci : ℚ) * (2/5))]
    else ls9
  let log11 := if io ≠ 0 then log10 - (io : ℚ) * (1/5) else log10
  let ls11 := if io ≠ 0 then
      ls10 ++ ["Info Overload x" ++ toString io ++ ": -" ++ fmt1 ((io : ℚ) * (1/5))]
    else ls10
  let logic := round2 (pymin lcap2 (pymax 1 log11))
  let lsF := ls11 ++ ["= " ++ fmt2 logic]
  (accuracy, logic, asF, lsF)

/-- `str(v)` of the flow value followed by `.lower()` — only its substring
content matters; non-string values are rendered by a simplified `repr`-style
printer that never contains the probed substrings. -/
def flowString : PyVal → String
  | .str s => lowerStr s
  | .bool b => if b then "true" else "false"
  | .int n => toString n
  | .float q => toString q
  | .none => "none"
  | .list _ => "[...]"
  | .dict _ => "\x7b...\x7d"

/-- The raising part of `_calculate_agent2_scores`: all dict reads, `int()`
coercions and `sev_penalty` applications of the source, in source order
(each is executed unconditionally in the source), feeding `objCore`.
`ped`, `comp`, `accF`, `logF`, `co` are
`result.get("pedagogical_depth"/"completeness"/"accuracy_flags"/"logic_flags"/"content_overview", {})`. -/
def agent2Compute (ped comp accF logF co : PyVal) :
    Except String (ℚ × ℚ × List String × List String) := do
  let fdl ← ped.getExc "formula_dumping_level" (.int 0)
  let fd ← sev_penalty fdl (1/2) (3/2) 2
  let pcl ← ped.getExc "pure_calculation_bias_level" (.int 0)
  let pc ← sev_penalty pcl (3/10) 1 (3/2)
  let dgl ← ped.getExc "pedagogical_depth_gap_level" (.int 0)
  let dg ← sev_penalty dgl (3/10) 1 (3/2)
  let pcI ← pyToInt pcl          -- int(ped.get("pure_calculation_bias_level", 0))
  let bRaw ← comp.getExc "content_brevity_level" (.int 0)
  let bI ← pyToInt bRaw          -- brevity = int(comp.get("content_brevity_level", 0))
  let cb ← sev_penalty (.int bI) (1/2) (3/2) 3
  let scl ← comp.getExc "superficial_coverage_level" (.int 0)
  let sc ← sev_penalty scl (1/2) (3/2) 2
  let mcl ← comp.getExc "missing_core_concepts_level" (.int 0)
  let mc ← sev_penalty mcl (3/10) 1 (3/2)
  let bwl ← comp.getExc "breadth_without_depth_level" (.int 0)
  let bw ← sev_penalty bwl (1/5) (1/2) 1
  let tml ← accF.getExc "title_content_mismatch_level" (.int 0)
  let tm ← sev_penalty tml (1/2) (3/2) 2
  let val ← accF.getExc "visual_alignment_issue_level" (.int 0)
  let va ← sev_penalty val 0 (1/2) 1
  let critRaw ← accF.getExc "critical_fact_error_count" (.int 0)
  let crit ← pyToInt critRaw
  let minorRaw ← accF.getExc "minor_slip_count" (.int 0)
  let minor ← pyToInt minorRaw
  -- flow default: result.get("content_overview", {}).get("logic_flow", "")
  let flowDflt ← co.getExc "logic_flow" (.str "")
  let lfa ← logF.getExc "logic_flow_assessment" flowDflt
  let llRaw ← logF.getExc "logic_leap_count" (.int 0)
  let ll ← pyToInt llRaw
  let pvRaw ← logF.getExc "prerequisite_violation_count" (.int 0)
  let pv ← pyToInt pvRaw
  let ciRaw ← logF.getExc "causal_inconsistency_count" (.int 0)
  let ci ← pyToInt ciRaw
  let ioRaw ← logF.getExc "information_overload_count" (.int 0)
  let io ← pyToInt ioRaw
  pure (objCore fd pc dg pcI bI cb sc mc bw tm va crit minor (flowString lfa) ll pv ci io)

/-- `agent2Compute` applied to the five projections the source reads out of
the judge result (`result.get(key, {})` each). -/
def projCompute (r : PyVal) : Except String (ℚ × ℚ × List String × List String) :=
  agent2Compute (r.getD "pedagogical_depth" (.dict []))
    (r.getD "completeness" (.dict []))
    (r.getD "accuracy_flags" (.dict []))
    (r.getD "logic_flags" (.dict []))
    (r.getD "content_overview" (.dict []))

/-- Model of `_calculate_agent2_scores(result)`: on success the three keys
`accuracy_score`, `logic_score` and `score_breakdown` are written into the
result dict; on any exception during computation the handler runs
`result.setdefault("accuracy_score", 3.0)` and
`result.setdefault("logic_score", 3.0)`; a non-dict `result` makes the
handler itself raise (its `.get`/`.setdefault` do not exist), which the
caller `run_agent2_sync` then catches. -/
def calculate_agent2_scores (r : PyVal) : Except String PyVal :=
  match r with
  | .dict _ =>
    match projCompute r with
    | .ok (a, l, accSteps, logSteps) =>
      .ok ((((r.set "accuracy_score" (.float a)).set "logic_score" (.float l)).set
        "score_breakdown"
        (.dict [("accuracy_steps", .str (joinSteps accSteps)),
                ("logic_steps", .str (joinSteps logSteps))])))
    | .error _ =>
      .ok ((r.setdefault "accuracy_score" (.float 3)).setdefault "logic_score" (.float 3))
  | _ => .error "AttributeError: object has no attribute get"

/-- Model of `human_eval_app.calculate_accuracy(flags)` (score component; the
function returns `(score, 0)` in the source).  Note its title-mismatch preset
is `(0.5, 2, 4)`. -/
def calculate_accuracy (flags : PyVal) : Except String ℚ := do
  let fd ← sev_penalty (← flags.getExc "formula_dumping" (.int 0)) (1/2) (3/2) 2
  let pcl ← flags.getExc "pure_calc_bias" (.int 0)
  let pc ← sev_penalty pcl (3/10) 1 (3/2)
  let dg ← sev_penalty (← flags.getExc "pedagogical_depth_gap" (.int 0)) (3/10) 1 (3/2)
  -- accuracy -= fd + pc + dg
  let pcI ← pyToInt (← flags.getExc "pure_calc_bias" (.int 0))
  let cap1 : ℚ := if pcI ≥ 2 then pymin 5 (7/2) else 5
  let bI ← pyToInt (← flags.getExc "brevity" (.int 0))
  let cap2 : ℚ := if bI = 3 then pymin cap1 2 else cap1
  let cb ← sev_penalty (.int bI) (1/2) (3/2) 3
  let sc ← sev_penalty (← flags.getExc "superficial" (.int 0)) (1/2) (3/2) 2
  let mc ← sev_penalty (← flags.getExc "missing_core_concepts" (.int 0)) (3/10) 1 (3/2)
  let bw ← sev_penalty (← flags.getExc "breadth_without_depth" (.int 0)) (1/5) (1/2) 1
  let tm ← sev_penalty (← flags.getExc "title_mismatch" (.int 0)) (1/2) 2 4
  let va ← sev_penalty (← flags.getExc "visual_alignment" (.int 0)) 0 (1/2) 1
  let crit ← pyToInt (← flags.getExc "critical_errors" (.int 0))
  let minor ← pyToInt (← flags.getExc "minor_slips" (.int 0))
  let acc : ℚ := 5 - (fd + pc + dg) - (cb + sc + mc + bw) - (tm + va)
    - ((crit : ℚ) * (1/2) + (minor : ℚ) * (1/5))
  pure (round2 (pymin cap2 (pymax 1 acc)))

/-- Model of Python `needle in v` for the container types the pipeline feeds
it: key membership for dicts, substring for strings, element equality for
lists; a `TypeError` otherwise. -/
def pyContains (needle : String) : PyVal → Except String Bool
  | .dict d => .ok (lookupA needle d).isSome
  | .str s => .ok (strHasSub s needle)
  | .list xs => .ok (xs.any fun x => match x with | .str t => needle = t | _ => false)
  | _ => .error "TypeError: argument of type is not iterable"

/-- Model of Python `v[k]` (subscript): `KeyError` on a missing dict key,
`TypeError` on a non-dict receiver. -/
def pyGetItem (v : PyVal) (k : String) : Except String PyVal :=
  match v with
  | .dict d =>
    match lookupA k d with
    | some x => .ok x
    | Option.none => .error "KeyError"
  | _ => .error "TypeError: object is not subscriptable"

/-- Model of `v.lower()`: only strings have it. -/
def pyLowerMeth : PyVal → Except String String
  | .str s => .ok (lowerStr s)
  | _ => .error "AttributeError: object has no attribute lower"

/-- Model of `calculate_penalty` in `_calculate_deterministic_scores`:
`bool → severity 2` (so `True ↦ 0.6`), positive ints map `1/2/else` to
`0.3/0.6/1.0`, everything else (incl. floats, strings, negatives) yields 0.
Never raises. -/
def calculate_penalty : PyVal → ℚ
  | .bool b => if b then 3/5 else 0
  | .int n => if n > 0 then (if n = 1 then 3/10 else if n = 2 then 3/5 else 1) else 0
  | _ => 0

/-- Model of `calculate_penalty_monotone` (monotone audio: 0.5/1.0/1.5). -/
def calculate_penalty_monotone : PyVal → ℚ
  | .bool b => if b then 1 else 0
  | .int n => if n > 0 then (if n = 1 then 1/2 else if n = 2 then 1 else 3/2) else 0
  | _ => 0

/-- Model of `calculate_penalty_disconnect` (same curve as monotone). -/
def calculate_penalty_disconnect : PyVal → ℚ
  | .bool b => if b then 1 else 0
  | .int n => if n > 0 then (if n = 1 then 1/2 else if n = 2 then 1 else 3/2) else 0
  | _ => 0

/-- One iteration of the `adaptability_penalties`/`engagement_penalties`
loop: `severity = flags.get(level_key, flags.get(legacy_key, 0))`, apply the
penalty function, and subtract/record when positive. -/
def penaltyStep (flags : PyVal) (levelKey legacyKey : String) (penFn : PyVal → ℚ)
    (flagName : String) (acc : ℚ × List String) : Except String (ℚ × List String) := do
  let dflt ← flags.getExc legacyKey (.int 0)
  let sev ← flags.getExc levelKey dflt
  let p := penFn sev
  pure (if p > 0 then (acc.1 - p, acc.2 ++ [flagName ++ ": -" ++ fmt1 p]) else acc)

/-- The four adaptability flag deductions of `_calculate_deterministic_scores`
(base 5.0), in source order. -/
def adaptLoop (af : PyVal) : Except String (ℚ × List String) := do
  let a0 : ℚ × List String := (5, ["Base: 5.0"])
  let a1 ← penaltyStep af "jargon_overload_level" "jargon_overload" calculate_penalty
    "Jargon Overload" a0
  let a2 ← penaltyStep af "prerequisite_gap_level" "prerequisite_gap" calculate_penalty
    "Prerequisite Gap" a1
  let a3 ← penaltyStep af "pacing_mismatch_level" "pacing_mismatch" calculate_penalty
    "Pacing Mismatch" a2
  penaltyStep af "missing_scaffolding_level" "missing_scaffolding" calculate_penalty
    "Missing Scaffolding" a3

/-- The visual-accessibility deduction of `_calculate_deterministic_scores`:
`visual_accessibility_level` (legacy `visual_accessibility_issue`), booleans
coerced to 1/0, strings to 0; positive ints map 1/2/else to 0.3/0.6/1.0 and a
"signaling" `accessibility_issue_type` adds +0.5 capped at 1.0; otherwise a
plain "signaling" issue type (checked with `.lower()`, which raises on
non-strings) costs a flat 0.5. -/
def visualAccessStep (af : PyVal) (acc : ℚ × List String) :
    Except String (ℚ × List String) := do
  let dflt ← af.getExc "visual_accessibility_issue" (.int 0)
  let vic0 ← af.getExc "visual_accessibility_level" dflt
  let vic : PyVal :=
    match vic0 with
    | .bool b => .int (if b then 1 else 0)
    | .str _ => .int 0
    | v => v
  match vic with
  | .int n =>
    if n > 0 then do
      let p0 : ℚ := if n = 1 then 3/10 else if n = 2 then 3/5 else 1
      let it ← af.getExc "accessibility_issue_type" (.str "contrast")
      -- `"signaling" in str(issue_type).lower()`
      let p := if strHasSub (flowString it) "signaling" then pymin 1 (p0 + 1/2) else p0
      pure (acc.1 - p, acc.2 ++ ["Visual Accessibility Issue: -" ++ fmt1 p])
    else do
      let it2 ← af.getExc "accessibility_issue_type" (.str "")
      let s ← pyLowerMeth it2
      pure (if s = "signaling" then
          (acc.1 - (1/2), acc.2 ++ ["Low Signaling Cues: -" ++ fmt1 (1/2)])
        else acc)
  | _ => do
    let it2 ← af.getExc "accessibility_issue_type" (.str "")
    let s ← pyLowerMeth it2
    pure (if s = "signaling" then
        (acc.1 - (1/2), acc.2 ++ ["Low Signaling Cues: -" ++ fmt1 (1/2)])
      else acc)

/-- The four engagement flag deductions (base 5.0), in source order. -/
def engageLoop (ef : PyVal) : Except String (ℚ × List String) := do
  let e0 : ℚ × List String := (5, ["Base: 5.0"])
  let e1 ← penaltyStep ef "monotone_audio_level" "monotone_audio" calculate_penalty_monotone
    "Monotone Audio" e0
  let e2 ← penaltyStep ef "ai_generated_fatigue_level" "ai_generated_fatigue" calculate_penalty
    "AI Generated Fatigue" e1
  let e3 ← penaltyStep ef "visual_clutter_level" "visual_clutter" calculate_penalty
    "Visual Clutter" e2
  penaltyStep ef "disconnect_level" "disconnect" calculate_penalty_disconnect
    "Visual/Audio Disconnect" e3

/-- `" → ".join(steps) + f" = {score:.2f}"`. -/
def calcStr (steps : List String) (score : ℚ) : String :=
  joinSteps steps ++ " = " ++ fmt2 score

/-- The second "fix audit_log structure" block of
`_calculate_deterministic_scores` (moving a top-level `ai_generated_fatigue`
into `engagement_flags` and deleting it from the top level), acting on the
current result state `r`; `al` is the function's local `audit_log` value.
Returns the updated state plus the exception, if one was raised. -/
def detFix2 (r al : PyVal) : PyVal × Option String :=
  if al.hasKey "ai_generated_fatigue" then
    match (r.getD "audit_log" (.dict [])).getExc "engagement_flags" (.dict []) with
    | .error e => (r, some e)
    | .ok efNow =>
      match pyContains "ai_generated_fatigue" efNow with
      | .error e => (r, some e)
      | .ok b =>
        if b then (r, Option.none)
        else
          let r4 := if ¬ r.hasKey "audit_log" then r.set "audit_log" (.dict []) else r
          match pyGetItem r4 "audit_log" with
          | .error e => (r4, some e)
          | .ok al4 =>
            match pyContains "engagement_flags" al4 with
            | .error e => (r4, some e)
            | .ok hasEf =>
              if ¬ hasEf ∧ ¬ al4.isDict then (r4, some "TypeError: item assignment")
              else
                let r5 := if ¬ hasEf then
                    r4.set "audit_log" (al4.set "engagement_flags" (.dict []))
                  else r4
                match pyGetItem r5 "audit_log" with
                | .error e => (r5, some e)
                | .ok al5 =>
                  match pyGetItem al5 "engagement_flags" with
                  | .error e => (r5, some e)
                  | .ok ef5 =>
                    match ef5 with
                    | .dict _ =>
                      let ef6 := (ef5.set "ai_generated_fatigue"
                          (al.getD "ai_generated_fatigue" (.bool false))).set
                          "ai_fatigue_evidence" (al.getD "ai_fatigue_evidence" (.str ""))
                      let r6 := r5.set "audit_log" (al5.set "engagement_flags" ef6)
                      let al6 := r6.getD "audit_log" PyVal.none
                      let al7 := if al6.hasKey "ai_generated_fatigue" then
                          al6.del "ai_generated_fatigue" else al6
                      let al8 := if al7.hasKey "ai_fatigue_evidence" then
                          al7.del "ai_fatigue_evidence" else al7
                      (r6.set "audit_log" al8, Option.none)
                    | _ => (r5, some "TypeError: item assignment")
  else (r, Option.none)

/-- The scoring and result-update part of `_calculate_deterministic_scores`,
after the first leak fix: `r` is the current state (the leak fix already
applied), `al`/`af`/`ef` are the function's local `audit_log`,
`adaptability_flags` and `engagement_flags` values. -/
def detScoring (r al af ef : PyVal) : PyVal × Option String :=
  match adaptLoop af with
  | .error e => (r, some e)
  | .ok a4 =>
    match visualAccessStep af a4 with
    | .error e => (r, some e)
    | .ok pA =>
      let adaptRaw := pA.1
      let adaptSteps := pA.2
      let adaptScore := pymax 0 (pymin 5 adaptRaw)
      match engageLoop ef with
      | .error e => (r, some e)
      | .ok pE =>
        let engRaw := pE.1
        let engSteps := pE.2
        let engScore := pymax 0 (pymin 5 engRaw)
        -- if "subjective_scores" not in result: result["subjective_scores"] = {}
        let r2 := if ¬ r.hasKey "subjective_scores" then
            r.set "subjective_scores" (.dict []) else r
        match pyGetItem r2 "subjective_scores" with
        | .error e => (r2, some e)
        | .ok ssv =>
          match ssv with
          | .dict _ =>
            let ss1 := ssv.set "adaptability"
              (.dict [("score", .float (round2 adaptScore)),
                      ("calculation", .str (calcStr adaptSteps adaptScore))])
            let ss2 := ss1.set "engagement"
              (.dict [("score", .float (round2 engScore)),
                      ("calculation", .str (calcStr engSteps engScore))])
            let r3 := r2.set "subjective_scores" ss2
            detFix2 r3 al
          | _ => (r2, some "TypeError: item assignment")

/-- Model of `_calculate_deterministic_scores(result)` as a state transformer:
returns the final result value together with the internally raised exception,
if any (the source catches every exception and returns the — possibly
partially mutated — result, printing a warning).  The first "leaked
`ai_generated_fatigue`" fix mutates the local `engagement_flags`, which
aliases `result["audit_log"]["engagement_flags"]` exactly when that key chain
exists in `result`. -/
def detBody (r : PyVal) : PyVal × Option String :=
  match r with
  | .dict _ =>
    let al := r.getD "audit_log" (.dict [])
    match al with
    | .dict _ =>
      let af := al.getD "adaptability_flags" (.dict [])
      let ef := al.getD "engagement_flags" (.dict [])
      if al.hasKey "ai_generated_fatigue" then
        match pyContains "ai_generated_fatigue" ef with
        | .error e => (r, some e)
        | .ok inEf =>
          if ¬ inEf then
            match ef with
            | .dict _ =>
              let ef1 := (ef.set "ai_generated_fatigue"
                  (al.getD "ai_generated_fatigue" (.bool false))).set
                  "ai_fatigue_evidence" (al.getD "ai_fatigue_evidence" (.str ""))
              let r1 := if r.hasKey "audit_log" ∧ al.hasKey "engagement_flags" then
                  r.set "audit_log" (al.set "engagement_flags" ef1) else r
              let al1 := if al.hasKey "engagement_flags" then
                  al.set "engagement_flags" ef1 else al
              detScoring r1 al1 af ef1
            | _ => (r, some "TypeError: item assignment")
          else detScoring r al af ef
      else detScoring r al af ef
    | _ => (r, some "AttributeError: object has no attribute get")
  | _ => (r, some "AttributeError: object has no attribute get")

/-- `_calculate_deterministic_scores` as seen by its callers: the returned
result value (exceptions are swallowed). -/
def calculate_deterministic_scores (r : PyVal) : PyVal :=
  (detBody r).1

/-- The score extraction performed by `_check_agent3_scores_valid`:
`subjective_scores`/`adaptability`/`engagement` lookups (each `.get` raising
on a non-dict receiver) and the dict-or-direct `score` unwrapping. -/
def subjExtractPair (r : PyVal) : Except String (PyVal × PyVal) := do
  let ss ← r.getExc "subjective_scores" (.dict [])
  let ad ← ss.getExc "adaptability" (.dict [])
  let en ← ss.getExc "engagement" (.dict [])
  let adS := match ad with | .dict d => (lookupA "score" d).getD ad | v => v
  let enS := match en with | .dict d => (lookupA "score" d).getD en | v => v
  pure (adS, enS)

/-- Model of `_check_agent3_scores_valid(result)`: `False` exactly when both
extracted scores compare `== 0`; any exception while inspecting the result
yields `True` (fail-open). -/
def check_agent3_scores_valid (r : PyVal) : Bool :=
  match subjExtractPair r with
  | .ok (a, e) => !(a.eqZero && e.eqZero)
  | .error _ => true

/-- The error-shaped result `{"error": e}` the stage functions return when
they catch an exception. -/
def errDict (e : String) : PyVal :=
  .dict [("error", .str e)]

/-- Model of `run_agent1_sync`: the whole model interaction (upload, poll,
generate, parse with markdown-fence fallback) is abstracted into its outcome
`call` — an exception anywhere in it is caught and turned into
`{"error": str(e)}`; a falsy parsed value becomes `{"error": "Empty
response"}` (`return result or {"error": "Empty response"}`).  The function
never raises. -/
def run_agent1_sync (call : Except String PyVal) : PyVal :=
  match call with
  | .error e => errDict e
  | .ok v => if v.truthy then v else errDict "Empty response"

/-- Model of `run_agent2_sync`: the model interaction is abstracted into
`call`; on success the parsed value (or the empty-response error dict) is fed
through `_calculate_agent2_scores`, whose own exception (non-dict input) is
caught by the same handler. -/
def run_agent2_sync (call : Except String PyVal) : PyVal :=
  match call with
  | .error e => errDict e
  | .ok v =>
    match calculate_agent2_scores (if v.truthy then v else errDict "Empty response") with
    | .ok r => r
    | .error e => errDict e

/-- Model of Python slicing `v[:n]` (lists and strings slice; everything else
raises a `TypeError`). -/
def pySliceTake (v : PyVal) (n : ℕ) : Except String (List PyVal) :=
  match v with
  | .list xs => .ok (xs.take n)
  | .str s => .ok ((s.toList.take n).map fun c => .str (String.mk [c]))
  | _ => .error "TypeError: object is not subscriptable"

/-- The `item.get("timestamp"/"issue"/"severity", …)` reads of the
contrast-issue formatting loop (raise on non-dict items). -/
def checkItems : List PyVal → Except String Unit
  | [] => .ok ()
  | item :: t => do
    let _ ← item.getExc "timestamp" (.str "??:??")
    let _ ← item.getExc "issue" (.str "Unspecified issue")
    let _ ← item.getExc "severity" (.str "Unknown")
    checkItems t

/-- The raising data-extraction steps `run_agent3_sync` performs on the Agent
1/Agent 2 results before calling the model (all `.get` chains, the
contrast-issue formatting loop and the `[:n]` slices, in source order); the
extracted strings only feed the prompt, so only whether a step raises is
retained. -/
def agent3Extract (a1 a2 : PyVal) : Except String Unit := do
  let pres ← a1.getExc "presentation_analysis" (.dict [])
  let _ ← pres.getExc "visual_style" (.str "Not specified")
  let _ ← pres.getExc "audio_pacing" (.str "Not specified")
  let _ ← pres.getExc "ai_slop_detected" (.bool false)
  let audioTrans ← pres.getExc "audio_transition_audit" (.dict [])
  let _ ← audioTrans.getExc "vocal_consistency" (.str "Not assessed")
  let _ ← audioTrans.getExc "glitches" (.list [])
  let visAlign ← pres.getExc "visual_content_alignment" (.dict [])
  let _ ← visAlign.getExc "score" (.str "Not assessed")
  let visAudit ← a1.getExc "visual_accessibility_audit" (.dict [])
  let _ ← visAudit.getExc "overall_legibility" (.str "Not assessed")
  let contrastIssues ← visAudit.getExc "contrast_issues" (.list [])
  if contrastIssues.truthy then do
    let items ← pySliceTake contrastIssues 3
    checkItems items
  else pure ()
  let contentMap ← a1.getExc "content_map" (.list [])
  let _ ← pySliceTake contentMap 5
  let verifiedErrors ← a2.getExc "verified_errors" (.list [])
  let _ ← pySliceTake verifiedErrors 3
  let _ ← a2.getExc "accuracy_score" (.str "N/A")
  let _ ← a2.getExc "logic_score" (.str "N/A")
  pure ()

/-- One attempt of `run_agent3_sync`: upload/poll (abstracted into `up`),
data extraction from the Agent 1/2 results, the model call (abstracted into
`gen`), then `_calculate_deterministic_scores` on the parsed value (or the
empty-response error dict).  The scoring itself never raises. -/
def attempt3 (a1 a2 : PyVal) (up : Except String Unit) (gen : Except String PyVal) :
    Except String PyVal := do
  let _ ← up
  let _ ← agent3Extract a1 a2
  let v ← gen
  pure (calculate_deterministic_scores (if v.truthy then v else errDict "Empty response"))

/-- Model of `run_agent3_sync` (`max_retries = 2`): a first attempt whose
valid result is returned; an invalid (zero-score) or raising first attempt
triggers a second attempt, whose result is returned whether or not it is
valid; only when the final attempt raises is `{"error": str(e)}` returned. -/
def run_agent3_sync (a1 a2 : PyVal) (up1 : Except String Unit) (gen1 : Except String PyVal)
    (up2 : Except String Unit) (gen2 : Except String PyVal) : PyVal :=
  match attempt3 a1 a2 up1 gen1 with
  | .ok fin =>
    if check_agent3_scores_valid fin then fin
    else
      match attempt3 a1 a2 up2 gen2 with
      | .ok fin2 => fin2
      | .error e => errDict e
  | .error _ =>
    match attempt3 a1 a2 up2 gen2 with
    | .ok fin2 => fin2
    | .error e => errDict e

/-- Result of one unit's pipeline run, as `process_single_task` reports it. -/
inductive TaskResult where
  | success (a1 a2 a3 : PyVal) (accuracy logic adaptability engagement : PyVal)
  | failed (e : String)

/-- Is the unit reported successful? -/
def TaskResult.isSuccess : TaskResult → Bool
  | .success .. => true
  | .failed _ => false

/-- The Agent 1 result carried by a successful unit report. -/
def TaskResult.agent1 : TaskResult → Option PyVal
  | .success a1 _ _ _ _ _ _ => some a1
  | .failed _ => Option.none

/-- Can the value be rendered with a `:.2f` format spec?  (ints, floats and
bools can; strings, lists, dicts and `None` raise.) -/
def fmtNumOk : PyVal → Bool
  | .bool _ => true
  | .int _ => true
  | .float _ => true
  | _ => false

/-- The score extraction of `process_single_task`:
`agent2_result.get("accuracy_score", 0)`, `…("logic_score", 0)`,
`agent3_result.get("subjective_scores", {})`, `…("adaptability", 0)`,
`…("engagement", 0)`, dict-valued subjective entries unwrapped via
`.get("score", 0)`, then the `:.2f` progress print, which raises on
non-numeric values. -/
def extractTaskScores (a2 a3 : PyVal) : Except String (PyVal × PyVal × PyVal × PyVal) := do
  let acc ← a2.getExc "accuracy_score" (.int 0)
  let lg ← a2.getExc "logic_score" (.int 0)
  let ss ← a3.getExc "subjective_scores" (.dict [])
  let ad0 ← ss.getExc "adaptability" (.int 0)
  let en0 ← ss.getExc "engagement" (.int 0)
  let ad := match ad0 with | .dict d => (lookupA "score" d).getD (.int 0) | v => v
  let en := match en0 with | .dict d => (lookupA "score" d).getD (.int 0) | v => v
  if fmtNumOk acc ∧ fmtNumOk lg ∧ fmtNumOk ad ∧ fmtNumOk en then
    pure (acc, lg, ad, en)
  else .error "ValueError: unknown format code f"

/-- Model of `process_single_task` given the three stage results: any
exception inside its `try` (only the score extraction/format can raise — the
three stage functions catch their own exceptions) yields a `success=False`
record; otherwise the unit is reported `success=True` with the extracted
scores (missing keys defaulting to 0). -/
def process_single_task (a1 a2 a3 : PyVal) : TaskResult :=
  match extractTaskScores a2 a3 with
  | .ok (acc, lg, ad, en) => .success a1 a2 a3 acc lg ad en
  | .error e => .failed e

/-- The result-saving phase of `process_all_tasks`: one CSV row per result
with `success=True` (results with `success=False` are skipped by
`continue`), and the summary CSV file is written only when at least one row
exists (`if csv_summary:`). -/
def process_all_tasks_save (rs : List TaskResult) :
    List (PyVal × PyVal × PyVal × PyVal) × Bool :=
  let rows := rs.filterMap fun r =>
    match r with
    | .success _ _ _ acc lg ad en => some (acc, lg, ad, en)
    | .failed _ => Option.none
  (rows, ¬ rows.isEmpty)

/-- One unit's full pipeline run: Agent 1, Agent 2, Agent 3 (two attempts)
with their model interactions abstracted into outcomes, then
`process_single_task`. -/
def runUnit (cA cB : Except String PyVal) (up1 : Except String Unit)
    (g1 : Except String PyVal) (up2 : Except String Unit) (g2 : Except String PyVal) :
    TaskResult :=
  let a1 := run_agent1_sync cA
  let a2 := run_agent2_sync cB
  let a3 := run_agent3_sync a1 a2 up1 g1 up2 g2
  process_single_task a1 a2 a3

/-- An objective severity flag set (spec: each level an ordinal in 0–3 — we
allow any natural, since levels above 3 are clamped — counts naturals, the
flow classification a free string). -/
structure ObjFlags where
  formulaDumping : ℕ
  pureCalc : ℕ
  depthGap : ℕ
  brevity : ℕ
  superficial : ℕ
  missingCore : ℕ
  breadthNoDepth : ℕ
  titleMismatch : ℕ
  visualAlignment : ℕ
  critErrors : ℕ
  minorSlips : ℕ
  flow : String
  logicLeaps : ℕ
  prereqViolations : ℕ
  causalInconsistencies : ℕ
  infoOverload : ℕ

/-- The judge-result dict carrying an objective flag set, with the key
vocabulary `_calculate_agent2_scores` reads. -/
def mkJudgeResult (f : ObjFlags) : PyVal :=
  .dict [("pedagogical_depth", .dict
            [("formula_dumping_level", .int f.formulaDumping),
             ("pure_calculation_bias_level", .int f.pureCalc),
             ("pedagogical_depth_gap_level", .int f.depthGap)]),
         ("completeness", .dict
            [("content_brevity_level", .int f.brevity),
             ("superficial_coverage_level", .int f.superficial),
             ("missing_core_concepts_level", .int f.missingCore),
             ("breadth_without_depth_level", .int f.breadthNoDepth)]),
         ("accuracy_flags", .dict
            [("title_content_mismatch_level", .int f.titleMismatch),
             ("visual_alignment_issue_level", .int f.visualAlignment),
             ("critical_fact_error_count", .int f.critErrors),
             ("minor_slip_count", .int f.minorSlips)]),
         ("logic_flags", .dict
            [("logic_flow_assessment", .str f.flow),
             ("logic_leap_count", .int f.logicLeaps),
             ("prerequisite_violation_count", .int f.prereqViolations),
             ("causal_inconsistency_count", .int f.causalInconsistencies),
             ("information_overload_count", .int f.infoOverload)])]

/-- The four-entry penalty table `[0, p1, p2, p3]` indexed by a clamped
natural level. -/
def penTable (p1 p2 p3 : ℚ) : ℕ → ℚ
  | 0 => 0
  | 1 => p1
  | 2 => p2
  | _ => p3

/-- A rational that is an integer number of hundredths (every value the
scoring engine manipulates is one, so `round(·, 2)` is the identity on
them). -/
def Centi (q : ℚ) : Prop := ∃ z : ℤ, q = (z : ℚ) / 100

/-- The accuracy ceiling `_calculate_agent2_scores` applies (tightest of the
default 5.0, the pure-calc 3.5 cap and the brevity 2.0 cap). -/
def capA (f : ObjFlags) : ℚ :=
  let cap1 : ℚ := if (f.pureCalc : ℤ) ≥ 2 then pymin 5 (7/2) else 5
  if (f.brevity : ℤ) = 3 then pymin cap1 2 else cap1

/-- The logic ceiling (flow cap 3.0, pure-calc 3.5, brevity 2.0). -/
def capL (f : ObjFlags) : ℚ :=
  let c0 : ℚ := if strHasSub (lowerStr f.flow) "formula_to_solving" ||
      strHasSub (lowerStr f.flow) "formula-to-solving" then 3 else 5
  let c1 : ℚ := if (f.pureCalc : ℤ) ≥ 2 then pymin c0 (7/2) else c0
  if (f.brevity : ℤ) = 3 then pymin c1 2 else c1

/-- The raw (pre-clamp) accuracy total on a flag set: 5.0 minus every
penalty. -/
def accRaw (f : ObjFlags) : ℚ :=
  5 - penTable (1/2) (3/2) 2 f.formulaDumping - penTable (3/10) 1 (3/2) f.pureCalc
    - penTable (3/10) 1 (3/2) f.depthGap - penTable (1/2) (3/2) 3 f.brevity
    - penTable (1/2) (3/2) 2 f.superficial - penTable (3/10) 1 (3/2) f.missingCore
    - penTable (1/5) (1/2) 1 f.breadthNoDepth - penTable (1/2) (3/2) 2 f.titleMismatch
    - penTable 0 (1/2) 1 f.visualAlignment
    - ((f.critErrors : ℤ) : ℚ) * (1/2) - ((f.minorSlips : ℤ) : ℚ) * (1/5)

/-- The raw (pre-clamp) logic total on a flag set. -/
def logRaw (f : ObjFlags) : ℚ :=
  5 - penTable (1/2) (3/2) 2 f.formulaDumping - penTable (3/10) 1 (3/2) f.pureCalc
    - penTable (3/10) 1 (3/2) f.depthGap - penTable (1/2) (3/2) 3 f.brevity
    - penTable (1/2) (3/2) 2 f.superficial - penTable (3/10) 1 (3/2) f.missingCore
    - penTable (1/5) (1/2) 1 f.breadthNoDepth
    - ((f.logicLeaps : ℤ) : ℚ) * (1/2) - ((f.prereqViolations : ℤ) : ℚ) * (1/2)
    - ((f.causalInconsistencies : ℤ) : ℚ) * (2/5) - ((f.infoOverload : ℤ) : ℚ) * (1/5)

/-- Abbreviation for `objCore` applied to a flag set's penalties. -/
def objCoreOf (f : ObjFlags) : ℚ × ℚ × List String × List String :=
  objCore
    (penTable (1/2) (3/2) 2 f.formulaDumping)
    (penTable (3/10) 1 (3/2) f.pureCalc)
    (penTable (3/10) 1 (3/2) f.depthGap)
    (f.pureCalc : ℤ) (f.brevity : ℤ)
    (penTable (1/2) (3/2) 3 f.brevity)
    (penTable (1/2) (3/2) 2 f.superficial)
    (penTable (3/10) 1 (3/2) f.missingCore)
    (penTable (1/5) (1/2) 1 f.breadthNoDepth)
    (penTable (1/2) (3/2) 2 f.titleMismatch)
    (penTable 0 (1/2) 1 f.visualAlignment)
    (f.critErrors : ℤ) (f.minorSlips : ℤ)
    (lowerStr f.flow)
    (f.logicLeaps : ℤ) (f.prereqViolations : ℤ) (f.causalInconsistencies : ℤ)
    (f.infoOverload : ℤ)

/-- A subjective severity flag set (ordinal levels; the accessibility issue
type is a free string). -/
structure SubjFlags where
  jargon : ℕ
  prereqGap : ℕ
  pacing : ℕ
  scaffolding : ℕ
  visAccess : ℕ
  issueType : String
  monotone : ℕ
  aiFatigue : ℕ
  clutter : ℕ
  disconnect : ℕ

/-- The simulation result carrying a subjective flag set in the `audit_log`
vocabulary `_calculate_deterministic_scores` reads. -/
def mkSubjResult (f : SubjFlags) : PyVal :=
  .dict [("audit_log", .dict
    [("adaptability_flags", .dict
       [("jargon_overload_level", .int f.jargon),
        ("prerequisite_gap_level", .int f.prereqGap),
        ("pacing_mismatch_level", .int f.pacing),
        ("missing_scaffolding_level", .int f.scaffolding),
        ("visual_accessibility_level", .int f.visAccess),
        ("accessibility_issue_type", .str f.issueType)]),
     ("engagement_flags", .dict
       [("monotone_audio_level", .int f.monotone),
        ("ai_generated_fatigue_level", .int f.aiFatigue),
        ("visual_clutter_level", .int f.clutter),
        ("disconnect_level", .int f.disconnect)])])]

/-- The two subjective scores a result carries
(`subjective_scores.adaptability.score` / `… .engagement.score`). -/
def subjPairOf (r : PyVal) : Option PyVal × Option PyVal :=
  ((r.lookupKey "subjective_scores").bind (fun ss =>
      (ss.lookupKey "adaptability").bind (PyVal.lookupKey "score")),
   (r.lookupKey "subjective_scores").bind (fun ss =>
      (ss.lookupKey "engagement").bind (PyVal.lookupKey "score")))

/-- A benign Agent-1 model output for the batch scenarios. -/
def dA : PyVal := .dict [("observation_summary", .str "ok")]

/-- A benign Agent-2 (judge) model output: no flags set. -/
def dB : PyVal := .dict [("verified_errors", .list [])]

/-- A benign Agent-3 (simulation) model output: one mild adaptability flag. -/
def dC : PyVal := .dict [("audit_log", .dict
  [("adaptability_flags", .dict [("jargon_overload_level", .int 1)]),
   ("engagement_flags", .dict [])])]

/-- A unit whose three stages' model interactions all succeed. -/
def unitA : TaskResult :=
  runUnit (.ok dA) (.ok dB) (.ok ()) (.ok dC) (.ok ()) (.ok dC)

/-- A unit whose Stage A model interaction raises (on its one invocation)
with message `e`; Stages B and C succeed. -/
def unitErr (e : String) : TaskResult :=
  runUnit (.error e) (.ok dB) (.ok ()) (.ok dC) (.ok ()) (.ok dC)

/-- A flag set with brevity 3 plus additional severe flags, for exercising
the brevity ceiling. -/
def severeFlags : ObjFlags :=
  ⟨3, 3, 3, 3, 3, 3, 3, 3, 3, 4, 4, "formula_to_solving", 2, 2, 2, 2⟩

/-- The result of the objective engine's first pass over an empty judge
result (used to feed the engine its own output a second time). -/
def agent2Once : PyVal :=
  match calculate_agent2_scores (.dict []) with
  | .ok r => r
  | .error _ => .dict []

/-- On natural-number levels `sev_penalty` never raises and computes the
clamped table lookup. -/
theorem sev_penalty_nat (p1 p2 p3 : ℚ) (n : ℕ) :
    sev_penalty (.int (n : ℤ)) p1 p2 p3 = .ok (penTable p1 p2 p3 n) := by
  rcases n with _ | _ | _ | k
  · rfl
  · rfl
  · rfl
  · show pyListIndex [0, p1, p2, p3] (min ((k + 3 : ℕ) : ℤ) 3) = .ok (penTable p1 p2 p3 (k + 3))
    have h : min ((k + 3 : ℕ) : ℤ) 3 = 3 := by
      have : (3 : ℤ) ≤ ((k + 3 : ℕ) : ℤ) := by exact_mod_cast Nat.le_add_left 3 k
      omega
    rw [h]; rfl

theorem centi_mk (z : ℤ) (q : ℚ) (h : q = (z : ℚ) / 100) : Centi q := ⟨z, h⟩

theorem centi_add {a b : ℚ} (ha : Centi a) (hb : Centi b) : Centi (a + b) := by
  obtain ⟨x, hx⟩ := ha; obtain ⟨y, hy⟩ := hb
  exact ⟨x + y, by rw [hx, hy]; push_cast; ring⟩

theorem centi_sub {a b : ℚ} (ha : Centi a) (hb : Centi b) : Centi (a - b) := by
  obtain ⟨x, hx⟩ := ha; obtain ⟨y, hy⟩ := hb
  exact ⟨x - y, by rw [hx, hy]; push_cast; ring⟩

theorem centi_min {a b : ℚ} (ha : Centi a) (hb : Centi b) : Centi (min a b) := by
  rcases min_choice a b with h | h <;> rw [h] <;> assumption

theorem centi_max {a b : ℚ} (ha : Centi a) (hb : Centi b) : Centi (max a b) := by
  rcases max_choice a b with h | h <;> rw [h] <;> assumption

theorem centi_ite {a b : ℚ} (p : Prop) [Decidable p] (ha : Centi a) (hb : Centi b) :
    Centi (if p then a else b) := by
  split <;> assumption

theorem centi_int_mul (n : ℤ) {q : ℚ} (h : Centi q) : Centi ((n : ℚ) * q) := by
  obtain ⟨z, hz⟩ := h
  exact ⟨n * z, by rw [hz]; push_cast; ring⟩

theorem centi_penTable {p1 p2 p3 : ℚ} (h1 : Centi p1) (h2 : Centi p2) (h3 : Centi p3) :
    ∀ n : ℕ, Centi (penTable p1 p2 p3 n)
  | 0 => centi_mk 0 0 (by norm_num)
  | 1 => h1
  | 2 => h2
  | _ + 3 => h3

/-- `round2` is the identity on integer numbers of hundredths. -/
theorem round2_centi {q : ℚ} (h : Centi q) : round2 q = q := by
  obtain ⟨z, hz⟩ := h
  subst hz
  unfold round2
  rw [div_mul_cancel₀ _ (by norm_num : (100 : ℚ) ≠ 0), Int.floor_int_add]
  norm_num

theorem pymin_eq (a b : ℚ) : pymin a b = min a b := by
  unfold pymin
  split_ifs with h
  · exact (min_eq_left h).symm
  · exact (min_eq_right (le_of_not_le h)).symm

theorem pymax_eq (a b : ℚ) : pymax a b = max a b := by
  unfold pymax
  split_ifs with h
  · exact (max_eq_left h).symm
  · exact (max_eq_right (le_of_not_le h)).symm

/-- The bounds of a clamped, rounded score: `round(min(cap, max(1, x)), 2)`
lies in `[1, cap]` whenever everything in sight is a number of hundredths
and the cap is at least 1. -/
theorem round2_clamp_bounds {cap x : ℚ} (hcap1 : 1 ≤ cap) (hc : Centi cap) (hx : Centi x) :
    1 ≤ round2 (pymin cap (pymax 1 x)) ∧ round2 (pymin cap (pymax 1 x)) ≤ cap := by
  have h1 : Centi (1 : ℚ) := centi_mk 100 1 (by norm_num)
  rw [pymin_eq, pymax_eq, round2_centi (centi_min hc (centi_max h1 hx))]
  exact ⟨le_min hcap1 (le_max_left 1 x), min_le_left _ _⟩

theorem ebind_ok {α β : Type} (a : α) (f : α → Except String β) :
    (Except.ok a : Except String α) >>= f = f a := rfl

theorem epure_def {α : Type} (a : α) : (pure a : Except String α) = .ok a := rfl

theorem ite_sub_collapse (a p : ℚ) : (if p ≠ 0 then a - p else a) = a - p := by
  split <;> simp_all

theorem ite_sub_int_collapse (a c : ℚ) (n : ℤ) :
    (if n ≠ 0 then a - (n : ℚ) * c else a) = a - (n : ℚ) * c := by
  split <;> simp_all

/-- On a flag-set-shaped judge result the objective computation never raises
and reduces to the pure arithmetic core on the table penalties. -/
theorem projCompute_mk (f : ObjFlags) :
    projCompute (mkJudgeResult f) = .ok (objCore
      (penTable (1/2) (3/2) 2 f.formulaDumping)
      (penTable (3/10) 1 (3/2) f.pureCalc)
      (penTable (3/10) 1 (3/2) f.depthGap)
      (f.pureCalc : ℤ) (f.brevity : ℤ)
      (penTable (1/2) (3/2) 3 f.brevity)
      (penTable (1/2) (3/2) 2 f.superficial)
      (penTable (3/10) 1 (3/2) f.missingCore)
      (penTable (1/5) (1/2) 1 f.breadthNoDepth)
      (penTable (1/2) (3/2) 2 f.titleMismatch)
      (penTable 0 (1/2) 1 f.visualAlignment)
      (f.critErrors : ℤ) (f.minorSlips : ℤ)
      (lowerStr f.flow)
      (f.logicLeaps : ℤ) (f.prereqViolations : ℤ) (f.causalInconsistencies : ℤ)
      (f.infoOverload : ℤ)) := by
  simp [projCompute, mkJudgeResult, agent2Compute, PyVal.getD, PyVal.getExc, lookupA,
    sev_penalty_nat, pyToInt, flowString, ebind_ok, epure_def]

theorem one_le_capA (f : ObjFlags) : 1 ≤ capA f := by
  unfold capA
  simp only [pymin_eq]
  split_ifs <;> simp [le_min_iff] <;> norm_num

theorem capA_le_five (f : ObjFlags) : capA f ≤ 5 := by
  unfold capA
  simp only [pymin_eq]
  split_ifs <;> norm_num [min_le_iff]

theorem one_le_capL (f : ObjFlags) : 1 ≤ capL f := by
  unfold capL
  simp only [pymin_eq]
  split_ifs <;> simp [le_min_iff] <;> norm_num

theorem capL_le_five (f : ObjFlags) : capL f ≤ 5 := by
  unfold capL
  simp only [pymin_eq]
  split_ifs <;> norm_num

theorem centi_capA (f : ObjFlags) : Centi (capA f) := by
  unfold capA
  simp only [pymin_eq]
  refine centi_ite _ (centi_min (centi_ite _ (centi_min ?_ ?_) ?_) ?_)
    (centi_ite _ (centi_min ?_ ?_) ?_) <;>
    first
      | exact centi_mk 500 5 (by norm_num)
      | exact centi_mk 350 (7/2) (by norm_num)
      | exact centi_mk 200 2 (by norm_num)

theorem centi_capL (f : ObjFlags) : Centi (capL f) := by
  unfold capL
  simp only [pymin_eq]
  refine centi_ite _ (centi_min (centi_ite _ (centi_min (centi_ite _ ?_ ?_) ?_)
      (centi_ite _ ?_ ?_)) ?_)
    (centi_ite _ (centi_min (centi_ite _ ?_ ?_) ?_) (centi_ite _ ?_ ?_)) <;>
    first
      | exact centi_mk 500 5 (by norm_num)
      | exact centi_mk 350 (7/2) (by norm_num)
      | exact centi_mk 300 3 (by norm_num)
      | exact centi_mk 200 2 (by norm_num)

theorem objCore_fst (f : ObjFlags) :
    (objCoreOf f).1 = round2 (pymin (capA f) (pymax 1 (accRaw f))) := by
  simp only [objCoreOf, objCore, capA, accRaw, ite_sub_collapse, ite_sub_int_collapse]

theorem objCore_snd (f : ObjFlags) :
    (objCoreOf f).2.1 = round2 (pymin (capL f) (pymax 1 (logRaw f))) := by
  simp only [objCoreOf, objCore, capL, logRaw, ite_sub_collapse, ite_sub_int_collapse]

theorem centi_accRaw (f : ObjFlags) : Centi (accRaw f) := by
  have c0 : Centi (0 : ℚ) := centi_mk 0 0 (by norm_num)
  have c1 : Centi (1 : ℚ) := centi_mk 100 1 (by norm_num)
  have c2 : Centi (2 : ℚ) := centi_mk 200 2 (by norm_num)
  have c3 : Centi (3 : ℚ) := centi_mk 300 3 (by norm_num)
  have c5 : Centi (5 : ℚ) := centi_mk 500 5 (by norm_num)
  have cH : Centi (1/2 : ℚ) := centi_mk 50 _ (by norm_num)
  have c32 : Centi (3/2 : ℚ) := centi_mk 150 _ (by norm_num)
  have c310 : Centi (3/10 : ℚ) := centi_mk 30 _ (by norm_num)
  have c15 : Centi (1/5 : ℚ) := centi_mk 20 _ (by norm_num)
  unfold accRaw
  repeat' apply centi_sub
  all_goals first
    | exact c5
    | exact centi_penTable cH c32 c2 _
    | exact centi_penTable c310 c1 c32 _
    | exact centi_penTable cH c32 c3 _
    | exact centi_penTable c15 cH c1 _
    | exact centi_penTable c0 cH c1 _
    | (apply centi_int_mul; first | exact cH | exact c15)

theorem centi_logRaw (f : ObjFlags) : Centi (logRaw f) := by
  have c0 : Centi (0 : ℚ) := centi_mk 0 0 (by norm_num)
  have c1 : Centi (1 : ℚ) := centi_mk 100 1 (by norm_num)
  have c2 : Centi (2 : ℚ) := centi_mk 200 2 (by norm_num)
  have c3 : Centi (3 : ℚ) := centi_mk 300 3 (by norm_num)
  have c5 : Centi (5 : ℚ) := centi_mk 500 5 (by norm_num)
  have cH : Centi (1/2 : ℚ) := centi_mk 50 _ (by norm_num)
  have c32 : Centi (3/2 : ℚ) := centi_mk 150 _ (by norm_num)
  have c310 : Centi (3/10 : ℚ) := centi_mk 30 _ (by norm_num)
  have c15 : Centi (1/5 : ℚ) := centi_mk 20 _ (by norm_num)
  have c25 : Centi (2/5 : ℚ) := centi_mk 40 _ (by norm_num)
  unfold logRaw
  repeat' apply centi_sub
  all_goals first
    | exact c5
    | exact centi_penTable cH c32 c2 _
    | exact centi_penTable c310 c1 c32 _
    | exact centi_penTable cH c32 c3 _
    | exact centi_penTable c15 cH c1 _
    | (apply centi_int_mul; first | exact cH | exact c15 | exact c25)

/-- Bounds of the objective engine on every flag set: the computation
succeeds and both scores land in `[1, cap]` for their respective tightest
ceilings. -/
theorem objective_outcome (f : ObjFlags) :
    projCompute (mkJudgeResult f) =
      .ok (round2 (pymin (capA f) (pymax 1 (accRaw f))),
           round2 (pymin (capL f) (pymax 1 (logRaw f))),
           (objCoreOf f).2.2.1, (objCoreOf f).2.2.2) ∧
      1 ≤ round2 (pymin (capA f) (pymax 1 (accRaw f))) ∧
      round2 (pymin (capA f) (pymax 1 (accRaw f))) ≤ capA f ∧
      1 ≤ round2 (pymin (capL f) (pymax 1 (logRaw f))) ∧
      round2 (pymin (capL f) (pymax 1 (logRaw f))) ≤ capL f := by
  refine ⟨?_, (round2_clamp_bounds (one_le_capA f) (centi_capA f) (centi_accRaw f)).1,
    (round2_clamp_bounds (one_le_capA f) (centi_capA f) (centi_accRaw f)).2,
    (round2_clamp_bounds (one_le_capL f) (centi_capL f) (centi_logRaw f)).1,
    (round2_clamp_bounds (one_le_capL f) (centi_capL f) (centi_logRaw f)).2⟩
  rw [projCompute_mk f, ← objCore_fst f, ← objCore_snd f]
  rfl

theorem lookupA_setA_self (k : String) (v : PyVal) (d : List (String × PyVal)) :
    lookupA k (setA k v d) = some v := by
  induction d with
  | nil => simp [setA, lookupA]
  | cons p t ih =>
    by_cases h : p.1 = k
    · simp [setA, lookupA, h]
    · simp [setA, lookupA, h, ih]

theorem lookupA_setA_ne {k k' : String} (h : ¬ k = k') (v : PyVal)
    (d : List (String × PyVal)) : lookupA k' (setA k v d) = lookupA k' d := by
  induction d with
  | nil => simp [setA, lookupA, h]
  | cons p t ih =>
    by_cases h2 : p.1 = k
    · simp [setA, lookupA, h2, h, ih]
    · simp [setA, lookupA, h2, ih]

theorem lookupA_append (k : String) (d e : List (String × PyVal)) :
    lookupA k (d ++ e) =
      match lookupA k d with
      | some x => some x
      | Option.none => lookupA k e := by
  induction d with
  | nil => simp [lookupA]
  | cons p t ih =>
    by_cases h : p.1 = k
    · simp [lookupA, h]
    · simp [lookupA, h, ih]

theorem lookupA_sdA_self (k : String) (v : PyVal) (d : List (String × PyVal)) :
    lookupA k (sdA k v d) = some ((lookupA k d).getD v) := by
  unfold sdA
  cases h : lookupA k d with
  | some x => simp [h]
  | none => simp [lookupA_append, h, lookupA]

theorem lookupA_sdA_ne {k k' : String} (h : ¬ k = k') (v : PyVal)
    (d : List (String × PyVal)) : lookupA k' (sdA k v d) = lookupA k' d := by
  unfold sdA
  cases h2 : lookupA k d with
  | some x => rfl
  | none =>
    simp only [lookupA_append, lookupA, h, if_neg]
    cases lookupA k' d <;> rfl

theorem sdA_of_present {k : String} {d : List (String × PyVal)} {x : PyVal}
    (h : lookupA k d = some x) (v : PyVal) : sdA k v d = d := by
  unfold sdA; rw [h]

theorem getD_set_ne (r : PyVal) {k k' : String} (v dflt : PyVal) (h : ¬ k = k') :
    (r.set k v).getD k' dflt = r.getD k' dflt := by
  cases r <;> simp [PyVal.set, PyVal.getD, lookupA_setA_ne h]

theorem getD_setdefault_ne (r : PyVal) {k k' : String} (v dflt : PyVal) (h : ¬ k = k') :
    (r.setdefault k v).getD k' dflt = r.getD k' dflt := by
  cases r <;> simp [PyVal.setdefault, PyVal.getD, lookupA_sdA_ne h]

theorem lookupKey_set_ne (r : PyVal) {k k' : String} (v : PyVal) (h : ¬ k = k') :
    (r.set k v).lookupKey k' = r.lookupKey k' := by
  cases r <;> simp [PyVal.set, PyVal.lookupKey, lookupA_setA_ne h]

theorem lookupKey_set_self (r : PyVal) (k : String) (v : PyVal) (hr : r.isDict = true) :
    (r.set k v).lookupKey k = some v := by
  cases r <;> simp_all [PyVal.set, PyVal.lookupKey, lookupA_setA_self, PyVal.isDict]

/-- The objective computation only reads the flag projections, which the
result writes of `_calculate_agent2_scores` do not touch. -/
theorem projCompute_writes (r : PyVal) (a l b : PyVal) :
    projCompute (((r.set "accuracy_score" a).set "logic_score" l).set "score_breakdown" b) =
      projCompute r := by
  unfold projCompute
  repeat rw [getD_set_ne _ _ _ (by decide)]

theorem projCompute_setdefaults (r : PyVal) (a l : PyVal) :
    projCompute ((r.setdefault "accuracy_score" a).setdefault "logic_score" l) =
      projCompute r := by
  unfold projCompute
  repeat rw [getD_setdefault_ne _ _ _ (by decide)]

theorem calc_a2_of_dict_ok (d : List (String × PyVal)) (a l : ℚ) (s1 s2 : List String)
    (hc : projCompute (.dict d) = .ok (a, l, s1, s2)) :
    calculate_agent2_scores (.dict d) =
      .ok ((((PyVal.dict d).set "accuracy_score" (.float a)).set "logic_score"
        (.float l)).set "score_breakdown"
        (.dict [("accuracy_steps", .str (joinSteps s1)),
                ("logic_steps", .str (joinSteps s2))])) := by
  unfold calculate_agent2_scores
  rw [hc]

theorem calc_a2_of_dict_err (d : List (String × PyVal)) (e : String)
    (hc : projCompute (.dict d) = .error e) :
    calculate_agent2_scores (.dict d) =
      .ok (((PyVal.dict d).setdefault "accuracy_score" (.float 3)).setdefault
        "logic_score" (.float 3)) := by
  unfold calculate_agent2_scores
  rw [hc]

/-- Applying `_calculate_agent2_scores` a second time, to the result it
already updated in place, succeeds and reproduces the same two scores: its
reads and its writes are disjoint key sets. -/
theorem agent2_second (r r₁ : PyVal) (h : calculate_agent2_scores r = .ok r₁) :
    ∃ r₂, calculate_agent2_scores r₁ = .ok r₂ ∧
      r₂.lookupKey "accuracy_score" = r₁.lookupKey "accuracy_score" ∧
      r₂.lookupKey "logic_score" = r₁.lookupKey "logic_score" := by
  cases r with
  | dict d =>
    cases hc : projCompute (.dict d) with
    | ok t =>
      obtain ⟨a, l, s1, s2⟩ := t
      rw [calc_a2_of_dict_ok d a l s1 s2 hc] at h
      injection h with h
      subst h
      have hc1 : projCompute (.dict (setA "score_breakdown"
          (.dict [("accuracy_steps", .str (joinSteps s1)),
                  ("logic_steps", .str (joinSteps s2))])
          (setA "logic_score" (.float l) (setA "accuracy_score" (.float a) d)))) =
          .ok (a, l, s1, s2) := by
        show projCompute ((((PyVal.dict d).set "accuracy_score" (.float a)).set
          "logic_score" (.float l)).set "score_breakdown"
          (.dict [("accuracy_steps", .str (joinSteps s1)),
                  ("logic_steps", .str (joinSteps s2))])) = .ok (a, l, s1, s2)
        rw [projCompute_writes, hc]
      refine ⟨_, calc_a2_of_dict_ok _ a l s1 s2 hc1, ?_, ?_⟩
      · rw [lookupKey_set_ne _ _ (by decide), lookupKey_set_ne _ _ (by decide),
          lookupKey_set_self _ _ _ (by rfl),
          lookupKey_set_ne _ _ (by decide), lookupKey_set_ne _ _ (by decide),
          lookupKey_set_self _ _ _ (by rfl)]
      · rw [lookupKey_set_ne _ _ (by decide), lookupKey_set_self _ _ _ (by rfl),
          lookupKey_set_ne _ _ (by decide), lookupKey_set_self _ _ _ (by rfl)]
    | error e =>
      rw [calc_a2_of_dict_err d e hc] at h
      injection h with h
      subst h
      have hacc : lookupA "accuracy_score" (sdA "logic_score" (.float 3)
          (sdA "accuracy_score" (.float 3) d)) =
          some ((lookupA "accuracy_score" d).getD (.float 3)) := by
        rw [lookupA_sdA_ne (by decide), lookupA_sdA_self]
      have hlog : lookupA "logic_score" (sdA "logic_score" (.float 3)
          (sdA "accuracy_score" (.float 3) d)) =
          some ((lookupA "logic_score" (sdA "accuracy_score" (.float 3) d)).getD
            (.float 3)) := lookupA_sdA_self _ _ _
      have hc1 : projCompute (.dict (sdA "logic_score" (.float 3)
          (sdA "accuracy_score" (.float 3) d))) = .error e := by
        show projCompute (((PyVal.dict d).setdefault "accuracy_score"
          (.float 3)).setdefault "logic_score" (.float 3)) = .error e
        rw [projCompute_setdefaults, hc]
      refine ⟨_, calc_a2_of_dict_err _ e hc1, ?_, ?_⟩ <;>
        simp [PyVal.setdefault, PyVal.lookupKey, sdA_of_present hacc,
          sdA_of_present hlog]
  | none => simp [calculate_agent2_scores] at h
  | bool b => simp [calculate_agent2_scores] at h
  | int n => simp [calculate_agent2_scores] at h
  | float q => simp [calculate_agent2_scores] at h
  | str s => simp [calculate_agent2_scores] at h
  | list xs => simp [calculate_agent2_scores] at h

theorem ite_ok {α : Type} (c : Prop) [Decidable c] (a b : α) :
    (if c then (.ok a : Except String α) else .ok b) = .ok (if c then a else b) := by
  split <;> simp_all

/-- Running the subjective scoring twice over a flag-set-shaped result (the
second run seeing the `subjective_scores` the first run wrote in place)
reproduces the same two scores. -/
theorem det_idempotent_flags (f : SubjFlags) :
    subjPairOf (calculate_deterministic_scores
      (calculate_deterministic_scores (mkSubjResult f))) =
    subjPairOf (calculate_deterministic_scores (mkSubjResult f)) := by
  simp [calculate_deterministic_scores, detBody, detScoring, detFix2, mkSubjResult,
    adaptLoop, visualAccessStep, engageLoop, penaltyStep, subjPairOf,
    PyVal.getD, PyVal.getExc, PyVal.hasKey, PyVal.set, PyVal.lookupKey, PyVal.isDict,
    pyGetItem, pyContains, pyLowerMeth, flowString, lookupA, setA,
    ebind_ok, epure_def, ite_ok]

/-- C3 counterexample: the claim says a boolean `True` yields the level-2
penalty `p2` and that the function never raises; in fact `int(True) = 1`, so
`True` yields `p1` (here `0.3`, not `p2 = 0.6`), and the integer `-5` indexes
out of range and raises `IndexError`. -/
theorem C3_counterexample :
    sev_penalty (.bool true) (3/10) (3/5) 1 = .ok (3/10) ∧ (3/10 : ℚ) ≠ 3/5 ∧
    sev_penalty (.int (-5)) (1/2) 1 2 = .error "IndexError: list index out of range" :=
  ⟨rfl, by norm_num, rfl⟩

/-- C3 (amended): `sev_penalty` maps `True` to `p1` (a Python bool is an int,
so `int(True) = 1`) and `False` to 0; a non-negative integer `n` yields
`[0, p1, p2, p3][min(n, 3)]`; a float is truncated to an integer first;
negative integers −1…−4 index the table from the end (−1 yields `p3`, −4
yields 0) and integers ≤ −5 raise `IndexError`; strings and `None` yield 0. -/
theorem C3_sev_penalty_characterisation (p1 p2 p3 : ℚ) (n : ℤ) (s : String) :
    sev_penalty (.bool true) p1 p2 p3 = .ok p1 ∧
    sev_penalty (.bool false) p1 p2 p3 = .ok 0 ∧
    (0 ≤ n → sev_penalty (.int n) p1 p2 p3 = .ok (penTable p1 p2 p3 n.toNat)) ∧
    sev_penalty (.int (-1)) p1 p2 p3 = .ok p3 ∧
    sev_penalty (.int (-2)) p1 p2 p3 = .ok p2 ∧
    sev_penalty (.int (-3)) p1 p2 p3 = .ok p1 ∧
    sev_penalty (.int (-4)) p1 p2 p3 = .ok 0 ∧
    (n ≤ -5 → sev_penalty (.int n) p1 p2 p3 =
      .error "IndexError: list index out of range") ∧
    sev_penalty (.str s) p1 p2 p3 = .ok 0 ∧
    sev_penalty .none p1 p2 p3 = .ok 0 ∧
    (∀ q : ℚ, sev_penalty (.float q) p1 p2 p3 = sev_penalty (.int (ratTrunc q)) p1 p2 p3) := by
  refine ⟨rfl, rfl, ?_, rfl, rfl, rfl, rfl, ?_, rfl, rfl, fun q => rfl⟩
  · intro h
    have hn : (n.toNat : ℤ) = n := Int.toNat_of_nonneg h
    rw [← hn]
    exact sev_penalty_nat p1 p2 p3 n.toNat
  · intro h
    show pyListIndex [0, p1, p2, p3] (min n 3) = _
    have h1 : min n 3 = n := min_eq_left (by omega)
    rw [h1]
    simp only [pyListIndex, List.length_cons, List.length_nil]
    split_ifs <;> first | rfl | omega

/-- C3 witness: the characterisation evaluated at concrete inputs. -/
theorem C3_witness :
    sev_penalty (.bool true) 1 2 3 = .ok 1 ∧
    (0 : ℤ) ≤ 5 ∧ sev_penalty (.int 5) 1 2 3 = .ok (penTable 1 2 3 (5 : ℤ).toNat) ∧
    (-7 : ℤ) ≤ -5 ∧ sev_penalty (.int (-7)) 1 2 3 =
      .error "IndexError: list index out of range" :=
  ⟨(C3_sev_penalty_characterisation 1 2 3 5 "x").1, by norm_num,
   (C3_sev_penalty_characterisation 1 2 3 5 "x").2.2.1 (by norm_num), by norm_num,
   (C3_sev_penalty_characterisation 1 2 3 (-7) "x").2.2.2.2.2.2.2.1 (by norm_num)⟩

/-- C4 counterexample: on a result whose `audit_log` is an int the subjective
computation raises internally (`.get` on a non-dict), the exception is
caught, but the result is returned unchanged — no neutral 3.0 fallback is
recorded for adaptability or engagement (there is no `subjective_scores`
entry at all). -/
theorem C4_counterexample :
    detBody (.dict [("audit_log", .int 7)]) =
      (.dict [("audit_log", .int 7)], some "AttributeError: object has no attribute get") ∧
    (PyVal.dict [("audit_log", .int 7)]).lookupKey "subjective_scores" = Option.none :=
  ⟨rfl, rfl⟩

/-- C4 (amended): exceptions inside either engine are caught and never
propagate, but the fallback differs: the objective engine defaults
`accuracy_score`/`logic_score` to 3.0 (via `setdefault`), while the
subjective engine returns the result unchanged, with no fallback score. -/
theorem C4_exception_fallbacks :
    (∀ (d : List (String × PyVal)) (e : String), projCompute (.dict d) = .error e →
      calculate_agent2_scores (.dict d) =
        .ok (((PyVal.dict d).setdefault "accuracy_score" (.float 3)).setdefault
          "logic_score" (.float 3))) ∧
    (∀ r : PyVal, r.isDict = true → (r.getD "audit_log" (.dict [])).isDict = false →
      calculate_deterministic_scores r = r) := by
  constructor
  · exact fun d e h => calc_a2_of_dict_err d e h
  · intro r h1 h2
    cases r with
    | dict d =>
      rcases hal : (PyVal.dict d).getD "audit_log" (.dict []) with _ | b | nn | q | s | xs | dd
      · unfold calculate_deterministic_scores; simp [detBody, hal]
      · unfold calculate_deterministic_scores; simp [detBody, hal]
      · unfold calculate_deterministic_scores; simp [detBody, hal]
      · unfold calculate_deterministic_scores; simp [detBody, hal]
      · unfold calculate_deterministic_scores; simp [detBody, hal]
      · unfold calculate_deterministic_scores; simp [detBody, hal]
      · rw [hal] at h2; simp [PyVal.isDict] at h2
    | none => simp [PyVal.isDict] at h1
    | bool b => simp [PyVal.isDict] at h1
    | int n => simp [PyVal.isDict] at h1
    | float q => simp [PyVal.isDict] at h1
    | str s => simp [PyVal.isDict] at h1
    | list xs => simp [PyVal.isDict] at h1

/-- C4 witness: both fallback behaviours at concrete malformed inputs. -/
theorem C4_witness :
    projCompute (.dict [("pedagogical_depth", .int 5)]) =
      .error "AttributeError: object has no attribute get" ∧
    calculate_agent2_scores (.dict [("pedagogical_depth", .int 5)]) =
      .ok (((PyVal.dict [("pedagogical_depth", .int 5)]).setdefault "accuracy_score"
        (.float 3)).setdefault "logic_score" (.float 3)) ∧
    (PyVal.dict [("audit_log", .str "zap")]).isDict = true ∧
    ((PyVal.dict [("audit_log", .str "zap")]).getD "audit_log" (.dict [])).isDict = false ∧
    calculate_deterministic_scores (.dict [("audit_log", .str "zap")]) =
      .dict [("audit_log", .str "zap")] :=
  ⟨rfl, C4_exception_fallbacks.1 _ _ rfl, rfl, rfl,
   C4_exception_fallbacks.2 _ rfl rfl⟩

/-- C6: the zero-score validity check returns invalid (`false`) exactly when
the extraction succeeds and both extracted scores compare `== 0`; every
other combination — including exactly one zero — is valid, and an exception
while inspecting the result yields valid (fail-open).  The closed conjuncts
evaluate the spec's three test cases. -/
theorem C6_zero_score_validity (r : PyVal) :
    (check_agent3_scores_valid r = false ↔
      ∃ a e, subjExtractPair r = .ok (a, e) ∧ a.eqZero = true ∧ e.eqZero = true) ∧
    check_agent3_scores_valid (.dict [("subjective_scores", .dict
      [("adaptability", .dict [("score", .int 0)]),
       ("engagement", .dict [("score", .int 0)])])]) = false ∧
    check_agent3_scores_valid (.dict [("subjective_scores", .dict
      [("adaptability", .dict [("score", .int 0)]),
       ("engagement", .dict [("score", .int 2)])])]) = true ∧
    check_agent3_scores_valid (.dict [("subjective_scores", .str "oops")]) = true := by
  refine ⟨?_, rfl, rfl, rfl⟩
  unfold check_agent3_scores_valid
  cases h : subjExtractPair r with
  | ok p =>
    obtain ⟨a, e⟩ := p
    constructor
    · intro hb
      simp only [Bool.not_eq_false', Bool.and_eq_true] at hb
      exact ⟨a, e, rfl, hb.1, hb.2⟩
    · rintro ⟨a', e', heq, ha, he⟩
      injection heq with heq2
      injection heq2 with h1 h2
      subst h1; subst h2
      simp [ha, he]
  | error er =>
    simp

/-- C8 counterexample: with zero successful unit results the result writer
skips the CSV write entirely — no summary output exists, empty or
otherwise. -/
theorem C8_counterexample :
    process_all_tasks_save [TaskResult.failed "boom"] = ([], false) := rfl

/-- C8 (amended): when a batch run produces zero successful unit results the
saving phase produces zero CSV rows and skips writing the summary file
(`if csv_summary:` guards the write), completing without error but without
any summary output. -/
theorem C8_no_summary_when_all_failed (rs : List TaskResult)
    (h : ∀ r ∈ rs, r.isSuccess = false) :
    process_all_tasks_save rs = ([], false) := by
  unfold process_all_tasks_save
  have hrows : (rs.filterMap fun r =>
      match r with
      | .success _ _ _ acc lg ad en => some (acc, lg, ad, en)
      | .failed _ => Option.none) = [] := by
    rw [List.filterMap_eq_nil_iff]
    intro r hr
    have hf := h r hr
    cases r with
    | success a1 a2 a3 acc lg ad en => simp [TaskResult.isSuccess] at hf
    | failed e => rfl
  rw [hrows]
  rfl

/-- C8 witness: a batch with one failed unit. -/
theorem C8_witness :
    (∀ r ∈ [TaskResult.failed "download unavailable"], r.isSuccess = false) ∧
    process_all_tasks_save [TaskResult.failed "download unavailable"] = ([], false) := by
  have h : ∀ r ∈ [TaskResult.failed "download unavailable"], r.isSuccess = false := by
    intro r hr
    simp only [List.mem_singleton] at hr
    subst hr
    rfl
  exact ⟨h, C8_no_summary_when_all_failed _ h⟩

/-- C1 (code bug): the two engines are not bit-identical on identical flag
values.  At title-mismatch level 2 with all other flags zero the batch
engine (preset 0.5/1.5/2.0) scores accuracy 3.5, while the human-review
engine (preset 0.5/2/4, despite its docstring claiming to match the batch
engine) scores 3.0. -/
theorem C1_dual_source_divergence :
    (calculate_agent2_scores (.dict [("accuracy_flags",
        .dict [("title_content_mismatch_level", .int 2)])])).map
      (PyVal.lookupKey "accuracy_score") = .ok (some (.float (7/2))) ∧
    calculate_accuracy (.dict [("title_mismatch", .int 2)]) = .ok 3 ∧
    (7/2 : ℚ) ≠ 3 :=
  ⟨by with_unfolding_all rfl, by with_unfolding_all rfl, by norm_num⟩

/-- C2 counterexample: in a 5-unit batch where unit 3's Stage A model
interaction raises on its invocation and everything else succeeds, the
summary does not report one failure — all five units are reported
successful (Stage A catches its own exception and returns an error-shaped
result, and `process_single_task` still marks the unit `success=True`). -/
theorem C2_counterexample :
    (process_all_tasks_save [unitA, unitA, unitErr "Stage A exception: boom",
      unitA, unitA]).1.length = 5 ∧
    (unitErr "Stage A exception: boom").isSuccess = true :=
  ⟨by with_unfolding_all rfl, by with_unfolding_all rfl⟩

/-- C2 (amended): for every Stage A exception message `e`, the affected unit
is still reported `success=True`; its Agent 1 result is the error-shaped
`{"error": e}` (so the exception is recorded there, not in the summary); the
summary carries a row for all five units, with the other units' rows
unchanged and unit 3's row scored from the downstream stages that ran on the
error-shaped input. -/
theorem C2_stage_a_exception_behaviour (e : String) :
    (unitErr e).isSuccess = true ∧
    (unitErr e).agent1 = some (.dict [("error", .str e)]) ∧
    process_all_tasks_save [unitA, unitA, unitErr e, unitA, unitA] =
      ([(.float 5, .float 5, .float (47/10), .float 5),
        (.float 5, .float 5, .float (47/10), .float 5),
        (.float 5, .float 5, .float (47/10), .float 5),
        (.float 5, .float 5, .float (47/10), .float 5),
        (.float 5, .float 5, .float (47/10), .float 5)], true) :=
  ⟨by with_unfolding_all rfl, by with_unfolding_all rfl, by with_unfolding_all rfl⟩

/-- C5: for every objective flag set the engine succeeds and returns scores
within `[1.0, cap]` for the tightest applicable ceiling (default 5.0, itself
at most 5.0); on the empty flag set both scores are exactly 5.0. -/
theorem C5_objective_score_bounds :
    (∀ f : ObjFlags, ∃ a l s1 s2,
      projCompute (mkJudgeResult f) = .ok (a, l, s1, s2) ∧
      1 ≤ a ∧ a ≤ capA f ∧ capA f ≤ 5 ∧ 1 ≤ l ∧ l ≤ capL f ∧ capL f ≤ 5) ∧
    ((projCompute (.dict [])).map (fun t => (t.1, t.2.1)) = .ok (5, 5)) := by
  constructor
  · intro f
    have h := objective_outcome f
    exact ⟨_, _, _, _, h.1, h.2.1, h.2.2.1, capA_le_five f, h.2.2.2.1, h.2.2.2.2,
      capL_le_five f⟩
  · with_unfolding_all rfl

/-- C7: whenever the content-brevity level equals 3, both the accuracy and
the logic score are at most 2.0, regardless of every other flag. -/
theorem C7_brevity_ceiling (f : ObjFlags) (h : f.brevity = 3) :
    ∃ a l s1 s2, projCompute (mkJudgeResult f) = .ok (a, l, s1, s2) ∧
      a ≤ 2 ∧ l ≤ 2 := by
  have hh := objective_outcome f
  have h3 : ((f.brevity : ℤ)) = 3 := by rw [h]; rfl
  refine ⟨_, _, _, _, hh.1, le_trans hh.2.2.1 ?_, le_trans hh.2.2.2.2 ?_⟩
  · unfold capA
    rw [if_pos h3, pymin_eq]
    exact min_le_right _ _
  · unfold capL
    rw [if_pos h3, pymin_eq]
    exact min_le_right _ _

/-- C7 witness: brevity 3 together with every other severe flag still caps
both scores at 2.0. -/
theorem C7_witness :
    severeFlags.brevity = 3 ∧
    ∃ a l s1 s2, projCompute (mkJudgeResult severeFlags) = .ok (a, l, s1, s2) ∧
      a ≤ 2 ∧ l ≤ 2 :=
  ⟨rfl, C7_brevity_ceiling severeFlags rfl⟩

/-- C9: both scoring computations are idempotent in their scores: feeding
the objective engine its own in-place-updated output succeeds and reproduces
the same `accuracy_score`/`logic_score`, and running the subjective engine
twice over a flag-set result (the second run seeing the
`subjective_scores` written by the first) reproduces the same
adaptability/engagement scores. -/
theorem C9_scoring_idempotent :
    (∀ r r₁, calculate_agent2_scores r = .ok r₁ →
      ∃ r₂, calculate_agent2_scores r₁ = .ok r₂ ∧
        r₂.lookupKey "accuracy_score" = r₁.lookupKey "accuracy_score" ∧
        r₂.lookupKey "logic_score" = r₁.lookupKey "logic_score") ∧
    (∀ f : SubjFlags, subjPairOf (calculate_deterministic_scores
        (calculate_deterministic_scores (mkSubjResult f))) =
      subjPairOf (calculate_deterministic_scores (mkSubjResult f))) :=
  ⟨agent2_second, det_idempotent_flags⟩

/-- C9 witness: the objective part applied to the engine's own output on an
empty judge result. -/
theorem C9_witness :
    ∃ r₂, calculate_agent2_scores agent2Once = .ok r₂ ∧
      r₂.lookupKey "accuracy_score" = agent2Once.lookupKey "accuracy_score" ∧
      r₂.lookupKey "logic_score" = agent2Once.lookupKey "logic_score" :=
  C9_scoring_idempotent.1 (.dict []) agent2Once rfl

/-- C10: whenever the score extraction after the three stage calls succeeds,
the unit is reported `success=True` with the extracted scores, a missing
score key defaulting to 0; in particular error-shaped stage results yield a
successful unit with accuracy 0 and logic 0 — below the engine's 1.0
floor. -/
theorem C10_success_with_default_zero :
    (∀ a1 a2 a3 q, extractTaskScores a2 a3 = .ok q →
      process_single_task a1 a2 a3 = .success a1 a2 a3 q.1 q.2.1 q.2.2.1 q.2.2.2) ∧
    (∀ e1 e2 e3 : String,
      process_single_task (errDict e1) (errDict e2) (errDict e3) =
        .success (errDict e1) (errDict e2) (errDict e3)
          (.int 0) (.int 0) (.int 0) (.int 0)) ∧
    ((0 : ℚ) < 1) := by
  refine ⟨?_, fun e1 e2 e3 => rfl, by norm_num⟩
  intro a1 a2 a3 q h
  unfold process_single_task
  rw [h]

/-- C10 witness: the first conjunct applied to empty stage results. -/
theorem C10_witness :
    extractTaskScores (.dict []) (.dict []) = .ok (.int 0, .int 0, .int 0, .int 0) ∧
    process_single_task (.dict []) (.dict []) (.dict []) =
      .success (.dict []) (.dict []) (.dict [])
        (.int 0) (.int 0) (.int 0) (.int 0) :=
  ⟨rfl, C10_success_with_default_zero.1 (.dict []) (.dict []) (.dict []) _ rfl⟩
